import Mathlib

/-
Verification development for the tiktok-live-watcher repository.

The Python source is shallowly embedded: each function that a claim
refers to is translated into a Lean definition over explicit state and
an explicit environment oracle that supplies the outcomes of external
calls (network probes, subprocesses, the filesystem).  Console prints
and subprocess operations are recorded as actions in an output trace.

Python conventions carried over faithfully:
  - is_user_live returns Optional[bool]: True = LIVE, False = OFFLINE,
    None = UNKNOWN; it is embedded as Option Bool (some true / some
    false / none).
  - last_status starts as None; Python uses the very same None both for
    the pre-first-poll baseline and for a stored UNKNOWN result.
-/

namespace Watcher

/-- Per-poll console and controller actions of TikTokLiveWatcher
(src/main.py); informational text is abstracted to one token per print
site. -/
inductive Action
  | printInitialDetection
  | printWentLive
  | resolveEndpoint
  | startRecording
  | printStartFailed
  | printNoUrl
  | printRecordingDisabled
  | printWentOffline
  | stopRecording
deriving DecidableEq

/-- Environment oracle for one poll of the monitor loop: the values the
external collaborators would return if consulted during this poll
(settings_manager.get_recording_enabled, recorder.is_recording,
checker.get_stream_url, recorder.start_recording). -/
structure PollEnv where
  recording_enabled : Bool
  recorder_active : Bool
  stream_url : Option String
  start_success : Bool
deriving DecidableEq

/-- Embedding of TikTokLiveWatcher._handle_status_change
(src/main.py lines 65-97).  Input: the stored last_status, the
recording_disabled_shown flag, the poll environment and the current
probe result; output: the new (last_status, recording_disabled_shown)
pair and the list of actions performed this poll.  The final
last_status := current assignment of line 97 is unconditional. -/
def handle_status_change (last : Option Bool) (shown : Bool) (env : PollEnv)
    (current : Option Bool) : (Option Bool × Bool) × List Action :=
  if (last = none ∧ current = some true) ∨ (last = some false ∧ current = some true) then
    let detect : List Action :=
      if last = none then [Action.printInitialDetection] else [Action.printWentLive]
    if env.recording_enabled = true ∧ env.recorder_active = false then
      match env.stream_url with
      | some _ =>
          if env.start_success then
            ((current, shown), detect ++ [Action.resolveEndpoint, Action.startRecording])
          else
            ((current, shown),
              detect ++ [Action.resolveEndpoint, Action.startRecording, Action.printStartFailed])
      | none => ((current, shown), detect ++ [Action.resolveEndpoint, Action.printNoUrl])
    else
      if env.recording_enabled = false ∧ shown = false then
        ((current, true), detect ++ [Action.printRecordingDisabled])
      else
        ((current, shown), detect)
  else if last = some true ∧ current = some false then
    if env.recorder_active then
      ((current, shown), [Action.printWentOffline, Action.stopRecording])
    else
      ((current, shown), [Action.printWentOffline])
  else
    ((current, shown), [])

/-- One monitoring session as the list of per-poll results: each entry
is the state after that poll paired with the actions of that poll
(the body of monitor_user, src/main.py lines 44-59, iterated). -/
def run_from (last : Option Bool) (shown : Bool) :
    List (PollEnv × Option Bool) → List ((Option Bool × Bool) × List Action)
  | [] => []
  | p :: rest =>
      let r := handle_status_change last shown p.1 p.2
      r :: run_from r.1.1 r.1.2 rest

/-- The session state (last_status, recording_disabled_shown) after
processing a list of polls, starting from a given state. -/
def runState (last : Option Bool) (shown : Bool) :
    List (PollEnv × Option Bool) → Option Bool × Bool
  | [] => (last, shown)
  | p :: rest =>
      let r := handle_status_change last shown p.1 p.2
      runState r.1.1 r.1.2 rest

/-- A full monitoring session started as monitor_user does
(src/main.py lines 40-41: last_status = None, flag reset). -/
def monitor_trace (polls : List (PollEnv × Option Bool)) :
    List ((Option Bool × Bool) × List Action) :=
  run_from none false polls

/-- Final session state of a full monitoring session. -/
def monitor_state (polls : List (PollEnv × Option Bool)) : Option Bool × Bool :=
  runState none false polls

/-- The entering-live action fired on a poll: the detection notice of
src/main.py line 72 or line 74 was printed. -/
def entering_fired (acts : List Action) : Prop :=
  Action.printInitialDetection ∈ acts ∨ Action.printWentLive ∈ acts

instance (acts : List Action) : Decidable (entering_fired acts) := by
  unfold entering_fired
  infer_instance

/-- A poll environment with recording enabled, the controller idle, a
resolvable endpoint, and a successful start. -/
def envRec : PollEnv :=
  { recording_enabled := true
    recorder_active := false
    stream_url := some "https://www.tiktok.com/@alice/live"
    start_success := true }

/-- A probe-outcome sequence LIVE, UNKNOWN, LIVE under envRec. -/
def c1_polls : List (PollEnv × Option Bool) :=
  [(envRec, some true), (envRec, none), (envRec, some true)]

/-
Status Prober: TikTokLiveChecker.is_user_live
(src/checkers/tiktok_checker.py lines 17-38).
-/

/-- Outcome of one underlying client.is_live call: a reported boolean,
or an exception. -/
inductive AttemptResult
  | ok (is_live : Bool)
  | err
deriving DecidableEq

/-- The backoff delay of src/checkers/tiktok_checker.py line 35:
delay = (2 ** attempt) + random.uniform(0, 1), with the random draw
supplied by the jitter oracle. -/
def backoff_delay (attempt : ℕ) (jitter : ℕ → ℚ) : ℚ :=
  2 ^ attempt + jitter attempt

/-- The body of the for-attempt-in-range(3) loop of is_user_live:
attempts is the oracle for each client.is_live call, jitter the oracle
for each random.uniform(0, 1) draw; fuel counts the remaining loop
iterations.  Returns the result (none = UNKNOWN after all retries) and
the list of backoff sleeps performed, in order. -/
def is_user_live_loop (attempts : ℕ → AttemptResult) (jitter : ℕ → ℚ) :
    ℕ → ℕ → Option Bool × List ℚ
  | _, 0 => (none, [])
  | attempt, fuel + 1 =>
    match attempts attempt with
    | AttemptResult.ok b => (some b, [])
    | AttemptResult.err =>
      if attempt < 2 then
        let r := is_user_live_loop attempts jitter (attempt + 1) fuel
        (r.1, backoff_delay attempt jitter :: r.2)
      else
        is_user_live_loop attempts jitter (attempt + 1) fuel

/-- Embedding of TikTokLiveChecker.is_user_live: three loop iterations
starting at attempt 0. -/
def is_user_live (attempts : ℕ → AttemptResult) (jitter : ℕ → ℚ) :
    Option Bool × List ℚ :=
  is_user_live_loop attempts jitter 0 3

/-- Attempt oracle that raises on attempts 0 and 1 and reports LIVE on
attempt 2. -/
def demoAttempts : ℕ → AttemptResult :=
  fun i => if i = 2 then AttemptResult.ok true else AttemptResult.err

/-- Attempt oracle that raises on every attempt. -/
def allErrAttempts : ℕ → AttemptResult := fun _ => AttemptResult.err

/-- Jitter oracle that always draws 0. -/
def zeroJitter : ℕ → ℚ := fun _ => 0

/-
Recording Controller: StreamRecorder (src/recorders/stream_recorder.py).
-/

/-- Substring search on character lists (the Python in operator on
strings, after lower-casing). -/
def hasSub (pat : List Char) : List Char → Bool
  | [] => pat.isEmpty
  | c :: rest => pat.isPrefixOf (c :: rest) || hasSub pat rest

/-- The characters of a string, lower-cased (Python str.lower for the
ASCII diagnostics compared here). -/
def lowerChars (s : String) : List Char := s.data.map Char.toLower

/-- Python: pat in s.lower(). -/
def strContains (s pat : String) : Bool := hasSub pat.data (lowerChars s)

/-- src/recorders/stream_recorder.py line 190: stderr contains the word
error after lower-casing. -/
def hasErrWord (stderr : String) : Bool := strContains stderr "error"

/-- src/recorders/stream_recorder.py line 134: the streamlink failure
markers. -/
def hasFailureMarker (stderr : String) : Bool :=
  strContains stderr "error:" || strContains stderr "no streams found"

/-- Environment oracle for one launched subprocess: what the operating
system will report when the recorder later polls, waits for, or reads
the diagnostics of this process.  running is the poll() is None answer
at stop time; wait_times_out says whether wait(timeout=5) raises
TimeoutExpired; internal_error models an unexpected exception raised
inside the try body of stop_recording (the actions performed before the
raise are abstracted away); stderr is the collected diagnostic output. -/
structure Proc where
  running : Bool
  wait_times_out : Bool
  internal_error : Bool
  stderr : String
deriving DecidableEq

/-- The controller state: self.active_process, zero or one handle
(src/recorders/stream_recorder.py line 13). -/
structure RecorderState where
  active_process : Option Proc
deriving DecidableEq

/-- Subprocess and console actions of StreamRecorder, one token per
operation or print site (informational prints are elided). -/
inductive RecAction
  | terminate
  | waitProc (seconds : ℕ)
  | kill
  | communicate
  | printRecError
  | printFinished
  | printStopped
  | printForceStopped
  | printStopErrorMsg
  | runFixup
  | launchStreamlink
  | sleepThree
  | printLaunchFailed
  | printStartedOk
  | launchYtdlp
  | printFallback
  | printStartErrorMsg
  | printNoUrlError
  | printNoToolsError
  | printFixing
  | runFfmpeg
  | replaceOriginal
  | printFixFailed
deriving DecidableEq

/-- Embedding of StreamRecorder.stop_recording
(src/recorders/stream_recorder.py lines 179-203).  The finally clause
releases the handle on every path; the fixup call of line 195 sits
inside the try after the graceful wait, so it is reached only on the
already-exited path and on the graceful-termination path, not after a
TimeoutExpired kill and not after an internal error. -/
def stop_recording (st : RecorderState) : RecorderState × List RecAction :=
  match st.active_process with
  | none => (st, [])
  | some p =>
    if p.internal_error then
      (⟨none⟩, [RecAction.printStopErrorMsg])
    else if p.running then
      if p.wait_times_out then
        (⟨none⟩, [RecAction.terminate, RecAction.waitProc 5, RecAction.kill,
          RecAction.printForceStopped])
      else
        (⟨none⟩, [RecAction.terminate, RecAction.waitProc 5, RecAction.printStopped,
          RecAction.runFixup])
    else
      (⟨none⟩,
        [RecAction.communicate] ++
          (if p.stderr ≠ "" ∧ hasErrWord p.stderr then [RecAction.printRecError] else []) ++
          [RecAction.printFinished, RecAction.runFixup])

/-- StreamRecorder.is_recording (src/recorders/stream_recorder.py
lines 221-225): a handle exists and its process has not exited. -/
def is_recording (st : RecorderState) : Bool :=
  match st.active_process with
  | some p => p.running
  | none => false

/-- StreamRecorder.cleanup (src/recorders/stream_recorder.py
lines 278-280): alias for stop_recording. -/
def cleanup (st : RecorderState) : RecorderState × List RecAction :=
  stop_recording st

/-- Environment oracle for one launch attempt: whether subprocess.Popen
raises, whether the launched process has already exited when polled
after the 3-second sleep, its diagnostic output, and the Proc oracle
attached to the new handle. -/
structure LaunchEnv where
  popen_raises : Bool
  exited_after_sleep : Bool
  stderr : String
  proc : Proc
deriving DecidableEq

/-- Environment oracle for start_recording: the check_dependencies
answers plus the launch oracle. -/
structure StartEnv where
  streamlink_available : Bool
  ytdlp_available : Bool
  ffmpeg_available : Bool
  launch : LaunchEnv
deriving DecidableEq

/-- Embedding of StreamRecorder._start_recording_streamlink
(src/recorders/stream_recorder.py lines 100-144): launch, sleep 3
seconds, and if the process has already exited read its diagnostics
and fail the launch when they contain a failure marker; otherwise keep
the handle and report success. -/
def start_recording_streamlink (st : RecorderState) (env : LaunchEnv) :
    RecorderState × List RecAction × Bool :=
  if env.popen_raises then
    (st, [RecAction.printStartErrorMsg], false)
  else if env.exited_after_sleep then
    if hasFailureMarker env.stderr then
      (⟨none⟩, [RecAction.launchStreamlink, RecAction.sleepThree, RecAction.communicate,
        RecAction.printLaunchFailed], false)
    else
      (⟨some env.proc⟩, [RecAction.launchStreamlink, RecAction.sleepThree,
        RecAction.communicate, RecAction.printStartedOk], true)
  else
    (⟨some env.proc⟩, [RecAction.launchStreamlink, RecAction.sleepThree,
      RecAction.printStartedOk], true)

/-- Embedding of StreamRecorder._start_recording_ytdlp
(src/recorders/stream_recorder.py lines 146-177): launch and return
True immediately; no post-launch liveness check is performed. -/
def start_recording_ytdlp (st : RecorderState) (env : LaunchEnv) :
    RecorderState × List RecAction × Bool :=
  if env.popen_raises then
    (st, [RecAction.printStartErrorMsg], false)
  else
    (⟨some env.proc⟩, [RecAction.launchYtdlp], true)

/-- Embedding of StreamRecorder.start_recording
(src/recorders/stream_recorder.py lines 79-98): if a handle exists,
stop_recording first; then dispatch on the available tools, failing
when the stream URL is missing or no tool is found. -/
def start_recording (st : RecorderState) (stream_url : Option String) (env : StartEnv) :
    RecorderState × List RecAction × Bool :=
  let s0 : RecorderState × List RecAction :=
    match st.active_process with
    | some _ => stop_recording st
    | none => (st, [])
  match stream_url with
  | none => (s0.1, s0.2 ++ [RecAction.printNoUrlError], false)
  | some _ =>
    if env.streamlink_available then
      let r := start_recording_streamlink s0.1 env.launch
      (r.1, s0.2 ++ r.2.1, r.2.2)
    else if env.ytdlp_available then
      let r := start_recording_ytdlp s0.1 env.launch
      (r.1, s0.2 ++ [RecAction.printFallback] ++ r.2.1, r.2.2)
    else
      (s0.1, s0.2 ++ [RecAction.printNoToolsError], false)

/-- Number of handles a controller state owns. -/
def handleCount (st : RecorderState) : ℕ :=
  match st.active_process with
  | some _ => 1
  | none => 0

/-- A process that is still running at stop time and whose graceful
wait times out. -/
def procHung : Proc :=
  { running := true, wait_times_out := true, internal_error := false, stderr := "" }

/-- A process that exited on its own with a failure marker on stderr. -/
def deadProc : Proc :=
  { running := false, wait_times_out := false, internal_error := false,
    stderr := "error: no stream" }

/-- A process for which stop_recording hits an unexpected internal
exception. -/
def procErr : Proc :=
  { running := true, wait_times_out := false, internal_error := true, stderr := "" }

/-- An environment in which only yt-dlp is installed and the launched
process dies immediately with a failure marker. -/
def ytdlpOnlyEnv : StartEnv :=
  { streamlink_available := false
    ytdlp_available := true
    ffmpeg_available := true
    launch :=
      { popen_raises := false
        exited_after_sleep := true
        stderr := "error: no stream"
        proc := deadProc } }

/-- An environment in which streamlink is installed and the launched
process dies immediately with a failure marker. -/
def streamlinkBadEnv : StartEnv :=
  { streamlink_available := true
    ytdlp_available := true
    ffmpeg_available := true
    launch :=
      { popen_raises := false
        exited_after_sleep := true
        stderr := "error: no stream"
        proc := deadProc } }

/-
Post-processing fixup: StreamRecorder._fix_recorded_files
(src/recorders/stream_recorder.py lines 227-276).
-/

/-- A file of the recordings directory: its path, its modification
time, and an abstract identifier for its bytes. -/
structure FsFile where
  path : String
  mtime : ℕ
  content : ℕ
deriving DecidableEq

/-- Environment oracle for one fixup run: the _get_ffmpeg_path answer,
whether the ffmpeg version probe succeeds, the glob snapshot of *.mp4
files in the recordings directory, the returncode of the repackaging
ffmpeg run, and the bytes it writes to the temp file. -/
structure FixEnv where
  ffmpeg_path : Option String
  version_check_ok : Bool
  mp4_files : List FsFile
  ffmpeg_returncode : ℕ
  fixed_content : ℕ
deriving DecidableEq

/-- One comparison step of Python max with key=os.path.getmtime: keep
the current maximum unless the next key is strictly greater. -/
def newerOf (a g : FsFile) : FsFile := if a.mtime < g.mtime then g else a

/-- Python max(mp4_files, key=os.path.getmtime): the first file of
maximal modification time, none on an empty directory. -/
def latestOf : List FsFile → Option FsFile
  | [] => none
  | f :: rest => some (rest.foldl newerOf f)

/-- The temp path of src/recorders/stream_recorder.py lines 247-248:
splitext drops the .mp4 suffix (4 characters, guaranteed by the *.mp4
glob) and _fixed.mp4 is appended. -/
def fixedPathOf (p : String) : String :=
  String.mk (p.data.take (p.data.length - 4) ++ ("_fixed.mp4").data)

/-- Embedding of StreamRecorder._fix_recorded_files: returns the final
listing of the recordings directory together with the actions
performed.  On returncode 0 the temp file is moved onto the original
path by os.replace; otherwise the temp file, if present, is removed and
nothing else changes.  All exceptions are caught inside the function. -/
def fix_recorded_files (env : FixEnv) : List FsFile × List RecAction :=
  match env.ffmpeg_path with
  | none => (env.mp4_files, [])
  | some _ =>
    if env.version_check_ok = false then
      (env.mp4_files, [])
    else
      match latestOf env.mp4_files with
      | none => (env.mp4_files, [])
      | some latest =>
        if env.ffmpeg_returncode = 0 then
          (((env.mp4_files.filter (fun f => f.path ≠ fixedPathOf latest.path)).map
              (fun f => if f.path = latest.path then
                { f with content := env.fixed_content } else f)),
            [RecAction.printFixing, RecAction.runFfmpeg, RecAction.replaceOriginal])
        else
          (env.mp4_files.filter (fun f => f.path ≠ fixedPathOf latest.path),
            [RecAction.printFixing, RecAction.runFfmpeg, RecAction.printFixFailed])

/-- A concrete recordings directory with two capture files. -/
def demoFiles : List FsFile :=
  [{ path := "alice_2024-01-01_10-00-00.mp4", mtime := 1, content := 10 },
   { path := "alice_2024-01-02_10-00-00.mp4", mtime := 5, content := 20 }]

/-- A fixup environment in which ffmpeg is present and succeeds. -/
def fixOkEnv : FixEnv :=
  { ffmpeg_path := some "ffmpeg"
    version_check_ok := true
    mp4_files := demoFiles
    ffmpeg_returncode := 0
    fixed_content := 99 }

/-- A fixup environment in which ffmpeg is present but the repackaging
run fails. -/
def fixBadEnv : FixEnv :=
  { ffmpeg_path := some "ffmpeg"
    version_check_ok := true
    mp4_files := demoFiles
    ffmpeg_returncode := 1
    fixed_content := 99 }

/-
Settings: SettingsManager (src/managers/settings_manager.py).
-/

/-- A JSON value, as far as the settings file needs. -/
inductive JsonVal
  | bool (b : Bool)
  | str (s : String)
  | other
deriving DecidableEq

/-- The state of the settings file as _load_settings encounters it:
missing, unreadable (IOError), unparsable (JSONDecodeError), or a
parsed JSON object. -/
inductive SettingsFile
  | missing
  | ioError
  | badJson
  | ok (entries : List (String × JsonVal))
deriving DecidableEq

/-- Embedding of SettingsManager._load_settings
(src/managers/settings_manager.py lines 12-20): default settings on a
missing file and on any caught read or parse error. -/
def load_settings : SettingsFile → List (String × JsonVal)
  | SettingsFile.missing => [("recording_enabled", JsonVal.bool false)]
  | SettingsFile.ioError => [("recording_enabled", JsonVal.bool false)]
  | SettingsFile.badJson => [("recording_enabled", JsonVal.bool false)]
  | SettingsFile.ok entries => entries

/-- Python dict.get with a default. -/
def dictGet (entries : List (String × JsonVal)) (key : String) (dflt : JsonVal) : JsonVal :=
  match entries.find? (fun kv => kv.1 = key) with
  | some kv => kv.2
  | none => dflt

/-- Embedding of SettingsManager.get_recording_enabled
(src/managers/settings_manager.py lines 30-32). -/
def get_recording_enabled (settings : List (String × JsonVal)) : JsonVal :=
  dictGet settings "recording_enabled" (JsonVal.bool false)

/-
Theorems.  Helper lemmas first, then one theorem per claim.
-/

/-- The last_status := current assignment of src/main.py line 97 is
unconditional: every branch of the handler stores the current probe
value. -/
theorem handle_sets_last (last : Option Bool) (shown : Bool) (env : PollEnv)
    (current : Option Bool) :
    (handle_status_change last shown env current).1.1 = current := by
  unfold handle_status_change
  repeat' split
  all_goals rfl

/-- The detection notice is printed exactly when the condition of
src/main.py line 70 holds. -/
theorem entering_fired_iff (last : Option Bool) (shown : Bool) (env : PollEnv)
    (current : Option Bool) :
    entering_fired (handle_status_change last shown env current).2 ↔
      ((last = none ∨ last = some false) ∧ current = some true) := by
  unfold handle_status_change entering_fired
  repeat' split
  all_goals try simp_all
  all_goals tauto

/-- A session trace has one entry per poll. -/
theorem run_from_length (l : Option Bool) (s : Bool)
    (polls : List (PollEnv × Option Bool)) :
    (run_from l s polls).length = polls.length := by
  induction polls generalizing l s with
  | nil => rfl
  | cons p rest ih => simp [run_from, ih]

/-- The i-th trace entry is the handler applied to the state reached
after the first i polls and the i-th poll. -/
theorem run_from_get (l : Option Bool) (s : Bool)
    (polls : List (PollEnv × Option Bool)) (i : ℕ) (p : PollEnv × Option Bool)
    (hp : polls[i]? = some p) :
    (run_from l s polls)[i]? =
      some (handle_status_change (runState l s (polls.take i)).1
        (runState l s (polls.take i)).2 p.1 p.2) := by
  induction polls generalizing l s i with
  | nil => simp at hp
  | cons q rest ih =>
    cases i with
    | zero =>
      simp at hp
      subst hp
      simp [run_from, runState]
    | succ n =>
      simp only [List.getElem?_cons_succ] at hp
      simp only [run_from, List.getElem?_cons_succ, List.take_succ_cons, runState]
      exact ih _ _ n hp

/-- The state reached after i + 1 polls is the handler state of the
i-th poll applied to the state after i polls. -/
theorem runState_take_succ (l : Option Bool) (s : Bool)
    (polls : List (PollEnv × Option Bool)) (i : ℕ) (p : PollEnv × Option Bool)
    (hp : polls[i]? = some p) :
    runState l s (polls.take (i + 1)) =
      (handle_status_change (runState l s (polls.take i)).1
        (runState l s (polls.take i)).2 p.1 p.2).1 := by
  induction polls generalizing l s i with
  | nil => simp at hp
  | cons q rest ih =>
    cases i with
    | zero =>
      simp at hp
      subst hp
      simp [runState]
    | succ n =>
      simp only [List.getElem?_cons_succ] at hp
      simp only [List.take_succ_cons, runState]
      exact ih _ _ n hp

/-- Claim C3: for every finite sequence of probe outcomes and every
poll index N, after the monitor loop has processed poll N the stored
last_status equals the N-th current probe value; the assignment
last_status := current is performed unconditionally in every branch of
the handler, including when the current value is UNKNOWN (none). -/
theorem last_status_equals_nth_current
    (polls : List (PollEnv × Option Bool)) (N : ℕ) (p : PollEnv × Option Bool)
    (hp : polls[N]? = some p) :
    (monitor_state (polls.take (N + 1))).1 = p.2 ∧
      (∀ l s env c, (handle_status_change l s env c).1.1 = c) := by
  constructor
  · unfold monitor_state
    rw [runState_take_succ none false polls N p hp]
    exact handle_sets_last _ _ _ _
  · exact handle_sets_last

/-- Witness for claim C3 at a concrete one-poll session. -/
theorem last_status_equals_nth_current_witness :
    (monitor_state ([(envRec, some true)].take 1)).1 = some true := by
  have h := last_status_equals_nth_current [(envRec, some true)] 0 (envRec, some true) rfl
  exact h.1

/-- An index below the trace length, from a successful lookup. -/
theorem trace_lookup_lt (polls : List (PollEnv × Option Bool)) (i : ℕ)
    (r : (Option Bool × Bool) × List Action)
    (h : (monitor_trace polls)[i]? = some r) : i < polls.length := by
  rcases Nat.lt_or_ge i (monitor_trace polls).length with hlt | hge
  · rwa [monitor_trace, run_from_length] at hlt
  · rw [List.getElem?_eq_none hge] at h
    exact absurd h (by simp)

/-- Claim C2: the entering-live action fires on a poll if and only if
the stored last_status is none or OFFLINE and the current probe result
is LIVE (src/main.py line 70); and in every run, if it fires on two
polls then some strictly intervening poll left a stored baseline of
OFFLINE or none. -/
theorem entering_live_fires_iff_baseline :
    (∀ last shown env current,
        entering_fired (handle_status_change last shown env current).2 ↔
          ((last = none ∨ last = some false) ∧ current = some true)) ∧
    (∀ (polls : List (PollEnv × Option Bool)) (i j : ℕ)
        (ri rj : (Option Bool × Bool) × List Action), i < j →
        (monitor_trace polls)[i]? = some ri →
        (monitor_trace polls)[j]? = some rj →
        entering_fired ri.2 → entering_fired rj.2 →
        ∃ k rk, i < k ∧ k < j ∧ (monitor_trace polls)[k]? = some rk ∧
          (rk.1.1 = none ∨ rk.1.1 = some false)) := by
  refine ⟨entering_fired_iff, ?_⟩
  intro polls i j ri rj hij hi hj hfi hfj
  have hjlen : j < polls.length := trace_lookup_lt polls j rj hj
  have hilen : i < polls.length := trace_lookup_lt polls i ri hi
  have hj1 : j - 1 < polls.length := by omega
  have hjpos : 0 < j := by omega
  -- identify the trace entries with the handler applied to the reached state
  have hpj : polls[j]? = some polls[j] := List.getElem?_eq_getElem hjlen
  have hpi : polls[i]? = some polls[i] := List.getElem?_eq_getElem hilen
  have hpj1 : polls[j - 1]? = some polls[j - 1] := List.getElem?_eq_getElem hj1
  have htj := run_from_get none false polls j (polls[j]) hpj
  have hti := run_from_get none false polls i (polls[i]) hpi
  have htj1 := run_from_get none false polls (j - 1) (polls[j - 1]) hpj1
  rw [monitor_trace] at hi hj
  have hrj : rj = handle_status_change (runState none false (polls.take j)).1
      (runState none false (polls.take j)).2 (polls[j]).1 (polls[j]).2 :=
    Option.some.inj (hj.symm.trans htj)
  have hri : ri = handle_status_change (runState none false (polls.take i)).1
      (runState none false (polls.take i)).2 (polls[i]).1 (polls[i]).2 :=
    Option.some.inj (hi.symm.trans hti)
  -- the baseline feeding poll j is OFFLINE or none
  have hbase : (runState none false (polls.take j)).1 = none ∨
      (runState none false (polls.take j)).1 = some false := by
    have := (entering_fired_iff _ _ _ _).mp (hrj ▸ hfj)
    exact this.1
  -- the trace entry at j - 1 carries exactly that baseline
  have hstep := runState_take_succ none false polls (j - 1) (polls[j - 1]) hpj1
  have hsucc : j - 1 + 1 = j := by omega
  rw [hsucc] at hstep
  refine ⟨j - 1, handle_status_change (runState none false (polls.take (j - 1))).1
      (runState none false (polls.take (j - 1))).2 (polls[j - 1]).1 (polls[j - 1]).2, ?_, by omega,
      by rw [monitor_trace]; exact htj1, by rw [← hstep]; exact hbase⟩
  -- i cannot equal j - 1: poll i fired, so the state it stored is LIVE
  have hcur : ri.1.1 = some true := by
    have hfire := (entering_fired_iff _ _ _ _).mp (hri ▸ hfi)
    rw [hri, handle_sets_last]
    exact hfire.2
  rcases Nat.lt_or_ge i (j - 1) with h | h
  · exact h
  · exfalso
    have hri1 : ri.1.1 = (runState none false (polls.take (i + 1))).1 := by
      rw [hri, ← runState_take_succ none false polls i (polls[i]) hpi]
    have hi1 : i + 1 = j := by omega
    rw [hi1] at hri1
    rw [hri1] at hcur
    rcases hbase with hb | hb <;> rw [hb] at hcur <;> exact absurd hcur (by simp)

/-- Witness for claim C2: in the session LIVE, UNKNOWN, LIVE the
entering-live action fires on polls 0 and 2, and poll 1 left a stored
baseline of none. -/
theorem entering_live_fires_iff_baseline_witness :
    ∃ k rk, 0 < k ∧ k < 2 ∧ (monitor_trace c1_polls)[k]? = some rk ∧
      (rk.1.1 = none ∨ rk.1.1 = some false) :=
  entering_live_fires_iff_baseline.2 c1_polls 0 2
    ((some true, false),
      [Action.printInitialDetection, Action.resolveEndpoint, Action.startRecording])
    ((some true, false),
      [Action.printInitialDetection, Action.resolveEndpoint, Action.startRecording])
    (by decide) (by decide) (by decide) (by decide) (by decide)

/-- Claim C1 counterexample: in the session with probe outcomes LIVE,
UNKNOWN, LIVE (recording enabled, controller idle, endpoint
resolvable), the poll that processes the final LIVE does trigger the
entering-live action: the detection notice is printed, the endpoint is
resolved, and start is called, because the UNKNOWN poll stored None
into last_status, the very value the initial-detection branch of
src/main.py line 70 fires on. -/
theorem c1_retrigger_counterexample :
    c1_polls.map Prod.snd = [some true, none, some true] ∧
    (monitor_trace c1_polls)[2]? = some ((some true, false),
      [Action.printInitialDetection, Action.resolveEndpoint, Action.startRecording]) := by
  decide

/-- Claim C1 (amended): after any poll whose probe result is UNKNOWN
the stored baseline becomes none, indistinguishable from the
pre-first-poll baseline, so a subsequent LIVE reading re-triggers the
entering-live action through the initial-detection branch (detection
notice always; endpoint resolution also happens when recording is
enabled and the controller is not active); the leaving-live action
still does not trigger on that poll. -/
theorem unknown_then_live_retriggers (l : Option Bool) (s s2 : Bool)
    (envU envL : PollEnv) :
    (handle_status_change l s envU none).1.1 = none ∧
    Action.printInitialDetection ∈ (handle_status_change none s2 envL (some true)).2 ∧
    Action.printWentOffline ∉ (handle_status_change none s2 envL (some true)).2 ∧
    Action.stopRecording ∉ (handle_status_change none s2 envL (some true)).2 ∧
    (envL.recording_enabled = true → envL.recorder_active = false →
      Action.resolveEndpoint ∈ (handle_status_change none s2 envL (some true)).2) := by
  refine ⟨handle_sets_last _ _ _ _, ?_, ?_, ?_, ?_⟩ <;>
  · rcases envL with ⟨re, ra, su, ss⟩
    rcases re <;> rcases ra <;> rcases su with _ | u <;> rcases ss <;> rcases s2 <;>
      simp [handle_status_change]

/-- Witness for claim C1 (amended): concrete LIVE-after-UNKNOWN poll
with recording enabled and the controller idle. -/
theorem unknown_then_live_retriggers_witness :
    Action.resolveEndpoint ∈ (handle_status_change none false envRec (some true)).2 :=
  (unknown_then_live_retriggers (some true) false false envRec envRec).2.2.2.2 rfl rfl

/-- Every backoff delay lies in the half-open unit-length interval
starting at its power of two, when the jitter draws do. -/
theorem backoff_delay_bounds (jitter : ℕ → ℚ)
    (hj : ∀ i, 0 ≤ jitter i ∧ jitter i < 1) (m : ℕ) :
    2 ^ m ≤ backoff_delay m jitter ∧ backoff_delay m jitter < 2 ^ m + 1 := by
  unfold backoff_delay
  constructor <;> linarith [(hj m).1, (hj m).2]

/-- The four possible shapes of one is_user_live run, by case analysis
on the three attempt outcomes. -/
theorem is_user_live_cases (attempts : ℕ → AttemptResult) (jitter : ℕ → ℚ) :
    (∃ b, attempts 0 = AttemptResult.ok b ∧
      is_user_live attempts jitter = (some b, [])) ∨
    (∃ b, attempts 0 = AttemptResult.err ∧ attempts 1 = AttemptResult.ok b ∧
      is_user_live attempts jitter = (some b, [backoff_delay 0 jitter])) ∨
    (∃ b, attempts 0 = AttemptResult.err ∧ attempts 1 = AttemptResult.err ∧
      attempts 2 = AttemptResult.ok b ∧
      is_user_live attempts jitter =
        (some b, [backoff_delay 0 jitter, backoff_delay 1 jitter])) ∨
    (attempts 0 = AttemptResult.err ∧ attempts 1 = AttemptResult.err ∧
      attempts 2 = AttemptResult.err ∧
      is_user_live attempts jitter =
        (none, [backoff_delay 0 jitter, backoff_delay 1 jitter])) := by
  rcases e0 : attempts 0 with b | _
  · exact Or.inl ⟨b, rfl, by simp [is_user_live, is_user_live_loop, e0]⟩
  rcases e1 : attempts 1 with b | _
  · exact Or.inr (Or.inl ⟨b, rfl, rfl, by simp [is_user_live, is_user_live_loop, e0, e1]⟩)
  rcases e2 : attempts 2 with b | _
  · exact Or.inr (Or.inr (Or.inl ⟨b, rfl, rfl, rfl,
      by simp [is_user_live, is_user_live_loop, e0, e1, e2]⟩))
  · exact Or.inr (Or.inr (Or.inr ⟨rfl, rfl, rfl,
      by simp [is_user_live, is_user_live_loop, e0, e1, e2]⟩))

/-- Claim C4: the probe performs at most 2 backoff sleeps; its result
depends only on attempts 0, 1, 2 (at most 3 underlying calls); if all
3 attempts fail it returns UNKNOWN (none) without raising (the
embedding is a total function); whichever attempt succeeds first, the
probe returns the value that attempt reported, after exactly one
backoff sleep per preceding failure (none, one, or two sleeps for
first success at attempt 0, 1, or 2); in particular a run that fails
on attempts 0 and 1 and succeeds LIVE on attempt 2 returns LIVE after
exactly the two backoff sleeps; and when every jitter draw lies in the
unit interval, the k-th backoff sleep lies in the half-open interval
from 2 to the k up to 2 to the k plus 1. -/
theorem is_user_live_retry_spec :
    (∀ attempts jitter, (is_user_live attempts jitter).2.length ≤ 2) ∧
    (∀ attempts attempts2 jitter, (∀ i, i < 3 → attempts i = attempts2 i) →
        is_user_live attempts jitter = is_user_live attempts2 jitter) ∧
    (∀ attempts jitter, (∀ i, i < 3 → attempts i = AttemptResult.err) →
        is_user_live attempts jitter =
          (none, [backoff_delay 0 jitter, backoff_delay 1 jitter])) ∧
    (∀ attempts jitter b, attempts 0 = AttemptResult.ok b →
        is_user_live attempts jitter = (some b, [])) ∧
    (∀ attempts jitter b, attempts 0 = AttemptResult.err →
        attempts 1 = AttemptResult.ok b →
        is_user_live attempts jitter = (some b, [backoff_delay 0 jitter])) ∧
    (∀ attempts jitter b, attempts 0 = AttemptResult.err →
        attempts 1 = AttemptResult.err → attempts 2 = AttemptResult.ok b →
        is_user_live attempts jitter =
          (some b, [backoff_delay 0 jitter, backoff_delay 1 jitter])) ∧
    (∀ attempts jitter, attempts 0 = AttemptResult.err →
        attempts 1 = AttemptResult.err → attempts 2 = AttemptResult.ok true →
        is_user_live attempts jitter =
          (some true, [backoff_delay 0 jitter, backoff_delay 1 jitter])) ∧
    (∀ attempts jitter k (q : ℚ), (∀ i, 0 ≤ jitter i ∧ jitter i < 1) →
        (is_user_live attempts jitter).2[k]? = some q →
        2 ^ k ≤ q ∧ q < 2 ^ k + 1) := by
  refine ⟨?_, ?_, ?_, ?_, ?_, ?_, ?_, ?_⟩
  · intro attempts jitter
    rcases is_user_live_cases attempts jitter with ⟨b, _, he⟩ | ⟨b, _, _, he⟩ |
      ⟨b, _, _, _, he⟩ | ⟨_, _, _, he⟩ <;> simp [he]
  · intro attempts attempts2 jitter h
    have f0 : attempts2 0 = attempts 0 := (h 0 (by omega)).symm
    have f1 : attempts2 1 = attempts 1 := (h 1 (by omega)).symm
    have f2 : attempts2 2 = attempts 2 := (h 2 (by omega)).symm
    rcases e0 : attempts 0 with b | _ <;>
    rcases e1 : attempts 1 with c | _ <;>
    rcases e2 : attempts 2 with d | _ <;>
      simp [is_user_live, is_user_live_loop, e0, e1, e2, f0, f1, f2]
  · intro attempts jitter h
    simp [is_user_live, is_user_live_loop,
      h 0 (by omega), h 1 (by omega), h 2 (by omega)]
  · intro attempts jitter b hb
    simp [is_user_live, is_user_live_loop, hb]
  · intro attempts jitter b h0 h1
    simp [is_user_live, is_user_live_loop, h0, h1]
  · intro attempts jitter b h0 h1 h2
    simp [is_user_live, is_user_live_loop, h0, h1, h2]
  · intro attempts jitter h0 h1 h2
    simp [is_user_live, is_user_live_loop, h0, h1, h2]
  · intro attempts jitter k q hj hq
    have hb := backoff_delay_bounds jitter hj
    rcases is_user_live_cases attempts jitter with ⟨b, _, he⟩ | ⟨b, _, _, he⟩ |
      ⟨b, _, _, _, he⟩ | ⟨_, _, _, he⟩ <;> rw [he] at hq
    · simp at hq
    · rcases k with _ | k
      · rw [List.getElem?_cons_zero, Option.some.injEq] at hq
        subst hq
        exact hb 0
      · rw [List.getElem?_cons_succ, List.getElem?_nil] at hq
        exact absurd hq (by simp)
    · rcases k with _ | _ | k
      · rw [List.getElem?_cons_zero, Option.some.injEq] at hq
        subst hq
        exact hb 0
      · rw [List.getElem?_cons_succ, List.getElem?_cons_zero, Option.some.injEq] at hq
        subst hq
        simpa using hb 1
      · rw [List.getElem?_cons_succ, List.getElem?_cons_succ, List.getElem?_nil] at hq
        exact absurd hq (by simp)
    · rcases k with _ | _ | k
      · rw [List.getElem?_cons_zero, Option.some.injEq] at hq
        subst hq
        exact hb 0
      · rw [List.getElem?_cons_succ, List.getElem?_cons_zero, Option.some.injEq] at hq
        subst hq
        simpa using hb 1
      · rw [List.getElem?_cons_succ, List.getElem?_cons_succ, List.getElem?_nil] at hq
        exact absurd hq (by simp)

/-- Witness for claim C4: the scenario attempt oracle, zero jitter. -/
theorem is_user_live_retry_spec_witness :
    is_user_live demoAttempts zeroJitter =
      (some true, [backoff_delay 0 zeroJitter, backoff_delay 1 zeroJitter]) :=
  is_user_live_retry_spec.2.2.2.2.2.2.1 demoAttempts zeroJitter rfl rfl rfl

/-- The finally clause of stop_recording: the handle is gone on every
path. -/
theorem stop_active_none (st : RecorderState) :
    (stop_recording st).1.active_process = none := by
  rcases st with ⟨_ | p⟩
  · rfl
  · unfold stop_recording
    repeat' split
    all_goals simp_all

/-- The post-stop state is the idle controller. -/
theorem stop_state (st : RecorderState) : (stop_recording st).1 = ⟨none⟩ :=
  congrArg RecorderState.mk (stop_active_none st)

/-- stop_recording on a handle-free controller does nothing. -/
theorem stop_recording_idle (st : RecorderState) (h : st.active_process = none) :
    stop_recording st = (st, []) := by
  rcases st with ⟨ap⟩
  cases ap with
  | none => rfl
  | some p => exact absurd h (by simp)

/-- Claim C5: after stop_recording returns, the handle is released on
every path: the state owns no process and is_recording is false, even
when the underlying process had already exited with an error and even
on the internal-error path; an immediately following second call is a
no-op. -/
theorem stop_releases_handle :
    (∀ st : RecorderState, (stop_recording st).1.active_process = none ∧
        is_recording (stop_recording st).1 = false) ∧
    (∀ st : RecorderState,
        stop_recording (stop_recording st).1 = ((stop_recording st).1, [])) ∧
    (∀ p : Proc, p.internal_error = true →
        (stop_recording ⟨some p⟩).1.active_process = none) := by
  refine ⟨?_, ?_, ?_⟩
  · intro st
    refine ⟨stop_active_none st, ?_⟩
    have h := stop_active_none st
    simp [is_recording, h]
  · intro st
    exact stop_recording_idle _ (stop_active_none st)
  · intro p _
    exact stop_active_none ⟨some p⟩

/-- Witness for claim C5: stop on a handle whose stop path raises an
internal error still releases the handle. -/
theorem stop_releases_handle_witness :
    (stop_recording ⟨some procErr⟩).1.active_process = none :=
  stop_releases_handle.2.2 procErr rfl

/-- Claim C6 counterexample: stopping a still-running process whose
graceful wait times out force-kills it, and the process thereby ends,
but the post-processing fixup step is not run (the fixup call sits
inside the try block, after the wait, and the TimeoutExpired handler
skips it). -/
theorem stop_timeout_skips_fixup_counterexample :
    procHung.running = true ∧
    (stop_recording ⟨some procHung⟩).2 =
      [RecAction.terminate, RecAction.waitProc 5, RecAction.kill,
        RecAction.printForceStopped] ∧
    RecAction.runFixup ∉ (stop_recording ⟨some procHung⟩).2 := by
  decide

/-- Claim C6 (amended): when stop_recording is called while the
process is still running (and no unexpected internal exception
occurs), it requests graceful termination and waits up to 5 seconds;
on timeout it force-kills the process and skips the fixup step; when
the wait completes in time it runs the post-processing fixup. -/
theorem stop_running_path (p : Proc) (hrun : p.running = true)
    (hie : p.internal_error = false) :
    (stop_recording ⟨some p⟩).2.take 2 = [RecAction.terminate, RecAction.waitProc 5] ∧
    (p.wait_times_out = true → RecAction.kill ∈ (stop_recording ⟨some p⟩).2 ∧
      RecAction.runFixup ∉ (stop_recording ⟨some p⟩).2) ∧
    (p.wait_times_out = false → RecAction.runFixup ∈ (stop_recording ⟨some p⟩).2 ∧
      RecAction.kill ∉ (stop_recording ⟨some p⟩).2) := by
  rcases p with ⟨r, w, ie, sd⟩
  simp only at hrun hie
  subst hrun
  subst hie
  cases w <;> simp [stop_recording]

/-- Witness for claim C6 (amended): the hung process is force-killed
and the fixup is skipped. -/
theorem stop_running_path_witness :
    RecAction.kill ∈ (stop_recording ⟨some procHung⟩).2 ∧
      RecAction.runFixup ∉ (stop_recording ⟨some procHung⟩).2 :=
  (stop_running_path procHung rfl rfl).2.1 rfl

/-- Every controller state owns at most one handle. -/
theorem handleCount_le_one (st : RecorderState) : handleCount st ≤ 1 := by
  rcases st with ⟨_ | p⟩ <;> simp [handleCount]

/-- stop_recording never performs the post-launch sleep. -/
theorem sleepThree_not_in_stop (st : RecorderState) :
    RecAction.sleepThree ∉ (stop_recording st).2 := by
  rcases st with ⟨_ | p⟩
  · simp [stop_recording]
  · unfold stop_recording
    repeat' split
    all_goals simp

/-- Claim C8: the controller owns at most one active subprocess handle
at any time (every operation returns such a state), and start while a
handle exists first performs the full stop of the existing recording:
it equals stop followed by start on the idle controller, with the stop
actions in front. -/
theorem controller_single_handle :
    (∀ st url env, handleCount (start_recording st url env).1 ≤ 1) ∧
    (∀ st : RecorderState, handleCount (stop_recording st).1 ≤ 1) ∧
    (∀ st : RecorderState, handleCount (cleanup st).1 ≤ 1) ∧
    (∀ st url env (p : Proc), st.active_process = some p →
        start_recording st url env =
          ((start_recording ⟨none⟩ url env).1,
            (stop_recording st).2 ++ (start_recording ⟨none⟩ url env).2.1,
            (start_recording ⟨none⟩ url env).2.2)) := by
  refine ⟨fun st url env => handleCount_le_one _,
    fun st => handleCount_le_one _, fun st => handleCount_le_one _, ?_⟩
  intro st url env p hp
  unfold start_recording
  simp only [hp, stop_state]
  rcases url with _ | u
  · simp
  · by_cases hsl : env.streamlink_available = true <;>
      by_cases hyd : env.ytdlp_available = true <;>
        simp [hsl, hyd]

/-- Witness for claim C8: starting over an existing handle in the
streamlink environment. -/
theorem controller_single_handle_witness :
    start_recording ⟨some deadProc⟩ (some "u") streamlinkBadEnv =
      ((start_recording ⟨none⟩ (some "u") streamlinkBadEnv).1,
        (stop_recording ⟨some deadProc⟩).2 ++
          (start_recording ⟨none⟩ (some "u") streamlinkBadEnv).2.1,
        (start_recording ⟨none⟩ (some "u") streamlinkBadEnv).2.2) :=
  controller_single_handle.2.2.2 ⟨some deadProc⟩ (some "u") streamlinkBadEnv deadProc rfl

/-- Claim C9 counterexample: with only the fallback tool available and
a launch whose process dies immediately with a failure marker on its
diagnostics, start_recording performs no liveness check (no post-launch
sleep), returns true, and keeps the dead handle instead of releasing
it. -/
theorem c9_ytdlp_no_liveness_check :
    hasFailureMarker ytdlpOnlyEnv.launch.stderr = true ∧
    ytdlpOnlyEnv.launch.exited_after_sleep = true ∧
    (start_recording ⟨none⟩ (some "https://www.tiktok.com/@alice/live")
      ytdlpOnlyEnv).2.2 = true ∧
    (start_recording ⟨none⟩ (some "https://www.tiktok.com/@alice/live")
      ytdlpOnlyEnv).1.active_process = some deadProc ∧
    RecAction.sleepThree ∉ (start_recording ⟨none⟩
      (some "https://www.tiktok.com/@alice/live") ytdlpOnlyEnv).2.1 := by
  decide

/-- Claim C9 (amended): the post-launch liveness check is performed
only on the streamlink (primary) path: there, a process that has
already exited with failure markers in its diagnostics makes start
release the handle and return false, and otherwise start returns true;
the yt-dlp fallback performs no liveness check and returns true with
the handle kept whenever the launch itself does not raise. -/
theorem start_liveness_check_streamlink_only :
    (∀ st url env, env.streamlink_available = true →
        env.launch.popen_raises = false → env.launch.exited_after_sleep = true →
        hasFailureMarker env.launch.stderr = true →
        (start_recording st (some url) env).1.active_process = none ∧
        (start_recording st (some url) env).2.2 = false ∧
        RecAction.sleepThree ∈ (start_recording st (some url) env).2.1) ∧
    (∀ st url env, env.streamlink_available = true →
        env.launch.popen_raises = false →
        (env.launch.exited_after_sleep = false ∨
          hasFailureMarker env.launch.stderr = false) →
        (start_recording st (some url) env).2.2 = true ∧
        RecAction.sleepThree ∈ (start_recording st (some url) env).2.1) ∧
    (∀ st url env, env.streamlink_available = false → env.ytdlp_available = true →
        env.launch.popen_raises = false →
        (start_recording st (some url) env).2.2 = true ∧
        (start_recording st (some url) env).1.active_process = some env.launch.proc ∧
        RecAction.sleepThree ∉ (start_recording st (some url) env).2.1) := by
  refine ⟨?_, ?_, ?_⟩
  · intro st url env h1 h2 h3 h4
    rcases st with ⟨_ | p⟩ <;>
      simp [start_recording, start_recording_streamlink, h1, h2, h3, h4]
  · intro st url env h1 h2 h3
    rcases h3 with h3 | h3 <;> rcases st with ⟨_ | p⟩ <;>
      rcases he : env.launch.exited_after_sleep <;>
      simp_all [start_recording, start_recording_streamlink]
  · intro st url env h1 h2 h3
    rcases st with ⟨_ | p⟩
    · simp [start_recording, start_recording_ytdlp, h1, h2, h3]
    · simp [start_recording, start_recording_ytdlp, h1, h2, h3]
      exact sleepThree_not_in_stop _

/-- Witness for claim C9 (amended): the streamlink path with a dead
launch releases the handle and fails. -/
theorem start_liveness_check_streamlink_only_witness :
    (start_recording ⟨none⟩ (some "u") streamlinkBadEnv).1.active_process = none ∧
    (start_recording ⟨none⟩ (some "u") streamlinkBadEnv).2.2 = false ∧
    RecAction.sleepThree ∈ (start_recording ⟨none⟩ (some "u") streamlinkBadEnv).2.1 :=
  start_liveness_check_streamlink_only.1 ⟨none⟩ "u" streamlinkBadEnv rfl rfl rfl
    (by decide)

/-- The running maximum of the mtime fold is the start element or a
list element. -/
theorem foldl_newerOf_mem (f : FsFile) (l : List FsFile) :
    l.foldl newerOf f = f ∨ l.foldl newerOf f ∈ l := by
  induction l generalizing f with
  | nil => exact Or.inl rfl
  | cons g rest ih =>
    simp only [List.foldl_cons]
    rcases ih (newerOf f g) with h | h
    · rw [h]
      unfold newerOf
      split
      · exact Or.inr (List.mem_cons_self _ _)
      · exact Or.inl rfl
    · exact Or.inr (List.mem_cons_of_mem _ h)

/-- The running maximum of the mtime fold bounds the start element and
every list element. -/
theorem foldl_newerOf_le (f : FsFile) (l : List FsFile) :
    f.mtime ≤ (l.foldl newerOf f).mtime ∧
      ∀ x ∈ l, x.mtime ≤ (l.foldl newerOf f).mtime := by
  induction l generalizing f with
  | nil => exact ⟨le_refl _, by simp⟩
  | cons g rest ih =>
    simp only [List.foldl_cons]
    obtain ⟨h1, h2⟩ := ih (newerOf f g)
    have hf : f.mtime ≤ (newerOf f g).mtime := by
      unfold newerOf
      split <;> omega
    have hg : g.mtime ≤ (newerOf f g).mtime := by
      unfold newerOf
      split <;> omega
    refine ⟨le_trans hf h1, ?_⟩
    intro x hx
    rcases List.mem_cons.mp hx with rfl | hx
    · exact le_trans hg h1
    · exact h2 x hx

/-- latestOf returns a member of the directory of maximal mtime. -/
theorem latestOf_spec (l : List FsFile) (f : FsFile) (h : latestOf l = some f) :
    f ∈ l ∧ ∀ x ∈ l, x.mtime ≤ f.mtime := by
  rcases l with _ | ⟨g, rest⟩
  · exact absurd h (by simp [latestOf])
  · have hf : rest.foldl newerOf g = f := by
      simpa [latestOf] using h
    constructor
    · rcases foldl_newerOf_mem g rest with hm | hm
      · rw [hf] at hm
        rw [hm]
        exact List.mem_cons_self _ _
      · rw [hf] at hm
        exact List.mem_cons_of_mem _ hm
    · intro x hx
      obtain ⟨h1, h2⟩ := foldl_newerOf_le g rest
      rw [hf] at h1 h2
      rcases List.mem_cons.mp hx with rfl | hx
      · exact h1
      · exact h2 x hx

/-- The temp path differs from the path it is derived from (it is 6
characters longer when the path carries the 4-character extension, and
10 characters long otherwise). -/
theorem fixedPathOf_ne (p : String) : fixedPathOf p ≠ p := by
  intro h
  have hlen := congrArg (fun s => s.data.length) h
  have h10 : ("_fixed.mp4").data.length = 10 := rfl
  simp only [fixedPathOf, List.length_append, List.length_take, h10] at hlen
  omega

/-- Updating a file content in place keeps its path. -/
theorem path_of_update (c : ℕ) (lp : String) (f : FsFile) :
    (if f.path = lp then { f with content := c } else f).path = f.path := by
  split <;> rfl

/-- Claim C7: the fixup repackages the most-recently-modified capture
file: on success the original path holds the repackaged bytes and no
temp file remains; on a failing repackaging run the temp artifact is
discarded, every other file survives untouched, nothing new appears,
and no temp file remains; when the fixup tool is absent or its version
probe fails, the directory is left exactly as it was (and the function
is total, so the failure is non-fatal). -/
theorem fixup_safe :
    (∀ env latest, env.ffmpeg_path ≠ none → env.version_check_ok = true →
        latestOf env.mp4_files = some latest → env.ffmpeg_returncode = 0 →
        { latest with content := env.fixed_content } ∈ (fix_recorded_files env).1 ∧
        (∀ f ∈ env.mp4_files, f.mtime ≤ latest.mtime) ∧
        fixedPathOf latest.path ∉ (fix_recorded_files env).1.map FsFile.path) ∧
    (∀ env latest, env.ffmpeg_path ≠ none → env.version_check_ok = true →
        latestOf env.mp4_files = some latest → env.ffmpeg_returncode ≠ 0 →
        (∀ f ∈ env.mp4_files, f.path ≠ fixedPathOf latest.path →
          f ∈ (fix_recorded_files env).1) ∧
        (∀ f ∈ (fix_recorded_files env).1, f ∈ env.mp4_files) ∧
        fixedPathOf latest.path ∉ (fix_recorded_files env).1.map FsFile.path) ∧
    (∀ env, env.ffmpeg_path = none → (fix_recorded_files env).1 = env.mp4_files) ∧
    (∀ env, env.version_check_ok = false →
        (fix_recorded_files env).1 = env.mp4_files) := by
  refine ⟨?_, ?_, ?_, ?_⟩
  · intro env latest hff hvc hlat hret
    obtain ⟨hmem, hbound⟩ := latestOf_spec env.mp4_files latest hlat
    rcases env with ⟨ff, vc, files, rc, fc⟩
    simp only at hff hvc hlat hret ⊢
    subst hvc
    subst hret
    rcases ff with _ | fp
    · exact absurd rfl hff
    have hres : (fix_recorded_files ⟨some fp, true, files, 0, fc⟩).1 =
        (files.filter (fun f => f.path ≠ fixedPathOf latest.path)).map
          (fun f => if f.path = latest.path then { f with content := fc } else f) := by
      simp [fix_recorded_files, hlat]
    rw [hres]
    refine ⟨?_, hbound, ?_⟩
    · refine List.mem_map.mpr ⟨latest, List.mem_filter.mpr ⟨hmem, ?_⟩, ?_⟩
      · simp [Ne.symm (fixedPathOf_ne latest.path)]
      · simp
    · intro hcontra
      obtain ⟨y, hy, hyp⟩ := List.mem_map.mp hcontra
      obtain ⟨f, hf, hfy⟩ := List.mem_map.mp hy
      have hfp : y.path = f.path := by
        rw [← hfy]
        exact path_of_update _ _ _
      have hne := (List.mem_filter.mp hf).2
      rw [hfp] at hyp
      simp [hyp] at hne
  · intro env latest hff hvc hlat hret
    rcases env with ⟨ff, vc, files, rc, fc⟩
    simp only at hff hvc hlat hret ⊢
    subst hvc
    rcases ff with _ | fp
    · exact absurd rfl hff
    have hres : (fix_recorded_files ⟨some fp, true, files, rc, fc⟩).1 =
        files.filter (fun f => f.path ≠ fixedPathOf latest.path) := by
      simp [fix_recorded_files, hlat, hret]
    rw [hres]
    refine ⟨?_, ?_, ?_⟩
    · intro f hf hne
      exact List.mem_filter.mpr ⟨hf, by simp [hne]⟩
    · intro f hf
      exact (List.mem_filter.mp hf).1
    · intro hcontra
      obtain ⟨y, hy, hyp⟩ := List.mem_map.mp hcontra
      have hne := (List.mem_filter.mp hy).2
      simp [hyp] at hne
  · intro env hff
    rcases env with ⟨ff, vc, files, rc, fc⟩
    simp only at hff
    subst hff
    rfl
  · intro env hvc
    rcases env with ⟨ff, vc, files, rc, fc⟩
    simp only at hvc
    subst hvc
    rcases ff with _ | fp
    · rfl
    · rfl

/-- Witness for claim C7: a successful fixup on a two-file directory
leaves the newest file with the repackaged bytes. -/
theorem fixup_safe_witness :
    ({ path := "alice_2024-01-02_10-00-00.mp4", mtime := 5, content := 99 } : FsFile) ∈
      (fix_recorded_files fixOkEnv).1 :=
  (fixup_safe.1 fixOkEnv ⟨"alice_2024-01-02_10-00-00.mp4", 5, 20⟩ (by simp [fixOkEnv])
    rfl (by decide) rfl).1

/-- Claim C10: when the settings file is missing, unreadable, or not
valid JSON, _load_settings returns the default settings without
raising (the embedding is a total function), and get_recording_enabled
on the loaded settings is false. -/
theorem settings_default_on_failure :
    load_settings SettingsFile.missing = [("recording_enabled", JsonVal.bool false)] ∧
    load_settings SettingsFile.ioError = [("recording_enabled", JsonVal.bool false)] ∧
    load_settings SettingsFile.badJson = [("recording_enabled", JsonVal.bool false)] ∧
    get_recording_enabled (load_settings SettingsFile.missing) = JsonVal.bool false ∧
    get_recording_enabled (load_settings SettingsFile.ioError) = JsonVal.bool false ∧
    get_recording_enabled (load_settings SettingsFile.badJson) = JsonVal.bool false := by
  decide

end Watcher
